import Mathlib

/-!
Verification development for `src/broadcast-server.ts` (a WebSocket
broadcast hub plus an interactive peer client, driven by a CLI).

The TypeScript source is shallowly embedded below:
* the hub's broadcast loop (source lines 56-65) as a pure function over a
  list of clients with explicit ready states and inboxes;
* the hub's lifecycle (signal handling, lines 10-27; the server error
  handler, lines 76-78) as a step function on a `ServerState`, producing an
  explicit trace of observable actions;
* the peer (lines 86-123, plus the client half of the signal handling,
  lines 29-40) as a step function on a `PeerState`;
* the CLI entry point (lines 128-144) as a function from the argument list
  to a `CliResult`.

Event callbacks in the source run to completion one at a time on the Node
event loop, so each model is a sequential fold of a step function over a
list of events.  `process.exit` terminates the process at once, so the
fold stops consuming events after an exit call has been recorded.
-/

/-- The four WebSocket ready states (`WebSocket.CONNECTING/OPEN/CLOSING/CLOSED`). -/
inductive ReadyState
  | CONNECTING
  | OPEN
  | CLOSING
  | CLOSED
  deriving DecidableEq, Repr

/-- A hub-side view of one connected client: an identity (reference identity
in the source, a numeric id here), its ready state, and the messages the hub
has delivered to it. -/
structure Client where
  id : Nat
  readyState : ReadyState
  inbox : List String
  deriving DecidableEq, Repr

/-- One send to one client.  `ws`'s `client.send(msg)` never throws for an
open socket: a transport-level failure is reported asynchronously (via the
client's own error/close events) and is invisible to the broadcasting loop.
The oracle `fails` says which clients' sends fail in transit; a failed send
delivers nothing but returns normally. -/
def sendTo (fails : Nat → Bool) (msg : String) (c : Client) : Client :=
  if fails c.id then c else { c with inbox := c.inbox ++ [msg] }

/-- The hub's broadcast loop, source lines 60-64:
`wss.clients.forEach((client) => { if (client.readyState === WebSocket.OPEN) client.send(msg); })`.
Every client whose ready state is `OPEN` is sent the message; all others are
skipped.  The function is total: no send result is inspected and no error is
raised to the caller. -/
def broadcast (fails : Nat → Bool) (msg : String) (clients : List Client) : List Client :=
  clients.map (fun c => if c.readyState = ReadyState.OPEN then sendTo fails msg c else c)

/-- The broadcast loop in the failure-free case (all sends succeed). -/
def broadcastMessage (msg : String) (clients : List Client) : List Client :=
  broadcast (fun _ => false) msg clients

/-- Observable actions of the hub process: stdout lines, stderr lines, a
close handshake requested on client `i` with a code and reason, closing the
listener (`wss.close`), and a `process.exit` call. -/
inductive ServerAction
  | logOut (s : String)
  | logErr (s : String)
  | closeClient (i : Nat) (code : Nat) (reason : String)
  | closeListener
  | exitProcess (code : Nat)
  deriving DecidableEq, Repr

/-- State of the hub process: ready states of the connected clients (in set
iteration order), the trace of actions performed so far, how many times the
body of `closeAllConnections` has run, and whether `process.exit` has been
reached. -/
structure ServerState where
  clients : List ReadyState
  trace : List ServerAction
  closeSeqCount : Nat
  exited : Bool
  deriving DecidableEq, Repr

/-- The close handshakes issued by `closeAllConnections` (source lines
14-18): one `client.close(1001, 'Server shutting down')` per client in state
`OPEN`, in iteration order; `i` is the index of the first client. -/
def shutdownCloseActions : List ReadyState → Nat → List ServerAction
  | [], _ => []
  | st :: rest, i =>
      (if st = ReadyState.OPEN
        then [ServerAction.closeClient i 1001 "Server shutting down"]
        else [])
        ++ shutdownCloseActions rest (i + 1)

/-- `closeAllConnections` (source lines 11-23): log, close every `OPEN`
client with `(1001, 'Server shutting down')`, then call `wss.close(cb)`.
The exit happens later, in the `wss.close` callback, modelled by the
`listenerCloseComplete` event.  Note the source installs this handler for
both `SIGINT` and `SIGTERM` with no one-shot guard: every delivered signal
runs this body again. -/
def closeAllConnections (s : ServerState) : ServerState :=
  { s with
    trace := s.trace
      ++ [ServerAction.logOut "\nShutting down server..."]
      ++ shutdownCloseActions s.clients 0
      ++ [ServerAction.closeListener]
    clients := s.clients.map
      (fun st => if st = ReadyState.OPEN then ReadyState.CLOSING else st)
    closeSeqCount := s.closeSeqCount + 1 }

/-- Events the hub process reacts to: a shutdown signal (`SIGINT` or
`SIGTERM`, same handler), completion of the listener close (the `wss.close`
callback, lines 19-22), and a server error (lines 76-78, e.g. a bind
failure). -/
inductive ServerEvent
  | signal
  | listenerCloseComplete
  | serverError (err : String)
  deriving DecidableEq, Repr

/-- One hub callback dispatch. -/
def serverStep (s : ServerState) : ServerEvent → ServerState
  | ServerEvent.signal => closeAllConnections s
  | ServerEvent.listenerCloseComplete =>
      { s with
        trace := s.trace
          ++ [ServerAction.logOut "Server has closed.", ServerAction.exitProcess 0]
        exited := true }
  | ServerEvent.serverError err =>
      { s with trace := s.trace ++ [ServerAction.logErr ("Server error: " ++ err)] }

/-- Sequential event-loop dispatch for the hub; `process.exit` terminates
the process, so no further events are consumed once `exited` is set. -/
def runServer (s : ServerState) : List ServerEvent → ServerState
  | [] => s
  | e :: es => if s.exited then s else runServer (serverStep s e) es

/-- A freshly started hub with the given connected-client ready states. -/
def initServer (cs : List ReadyState) : ServerState :=
  { clients := cs, trace := [], closeSeqCount := 0, exited := false }

/-- The fixed port constant, source line 5. -/
def PORT : Nat := 8080

/-- The hub address the peer connects to, source line 87. -/
def clientAddress : String := "ws://localhost:" ++ toString PORT

/-- State of the peer process (`startClient`, source lines 86-123):
the single connection's ready state, whether the readline interface has been
created yet (it is created inside the `open` handler, lines 93-97, so line
events are only consumed after `open`), the messages sent to the hub, the
stdout and stderr lines, the `ws.close(code, reason)` calls, and the
`process.exit(code)` calls. -/
structure PeerState where
  readyState : ReadyState
  rlActive : Bool
  sent : List String
  stdout : List String
  stderr : List String
  closeCalls : List (Nat × String)
  exitCalls : List Nat
  deriving DecidableEq, Repr

/-- Events the peer process reacts to: the connection opening, an inbound
message, the connection closing (with the transport-supplied code and
reason), a connection error, an operator input line, and a shutdown signal
(`SIGINT` or `SIGTERM`, same handler, lines 38-39). -/
inductive PeerEvent
  | openEv
  | messageEv (data : String)
  | closeEv (code : Nat) (reason : String)
  | errorEv (err : String)
  | lineEv (l : String)
  | signalEv
  deriving DecidableEq, Repr

/-- One peer callback dispatch, translated handler by handler:
* `open` (lines 90-106): the transport has moved the socket to `OPEN`; log
  the connected notice and create the readline interface;
* `message` (lines 108-111): print `"> " + data`;
* `close` (lines 113-116): the transport has moved the socket to `CLOSED`;
  print the disconnect notice and call `process.exit(0)`;
* `error` (lines 118-120): log the error to stderr, nothing else;
* `line` (lines 99-105, only live once readline exists): if the socket is
  `OPEN` send the line, else print the not-open notice and drop the line;
* signal (`shutdownClient`, lines 30-36): log, close the socket with
  `(1000, 'Client exit')` if it is `OPEN`, then call `process.exit(0)`. -/
def peerStep (s : PeerState) : PeerEvent → PeerState
  | PeerEvent.openEv =>
      { s with
        readyState := ReadyState.OPEN
        stdout := s.stdout
          ++ ["Connected to server at " ++ clientAddress
                ++ ". Type messages and hit Enter to send."]
        rlActive := true }
  | PeerEvent.messageEv data =>
      { s with stdout := s.stdout ++ ["> " ++ data] }
  | PeerEvent.closeEv code reason =>
      { s with
        readyState := ReadyState.CLOSED
        stdout := s.stdout
          ++ ["Disconnected from server (code: " ++ toString code
                ++ ", reason: " ++ reason ++ ")"]
        exitCalls := s.exitCalls ++ [0] }
  | PeerEvent.errorEv err =>
      { s with stderr := s.stderr ++ ["WebSocket error: " ++ err] }
  | PeerEvent.lineEv l =>
      if s.rlActive then
        if s.readyState = ReadyState.OPEN then
          { s with sent := s.sent ++ [l] }
        else
          { s with stdout := s.stdout ++ ["Connection is not open. Unable to send message."] }
      else s
  | PeerEvent.signalEv =>
      let s1 := { s with stdout := s.stdout ++ ["\nDisconnecting client..."] }
      let s2 :=
        if s1.readyState = ReadyState.OPEN then
          { s1 with
            readyState := ReadyState.CLOSING
            closeCalls := s1.closeCalls ++ [(1000, "Client exit")] }
        else s1
      { s2 with exitCalls := s2.exitCalls ++ [0] }

/-- Sequential event-loop dispatch for the peer; `process.exit` terminates
the process, so no further events are consumed once an exit call has been
recorded. -/
def runPeer (s : PeerState) : List PeerEvent → PeerState
  | [] => s
  | e :: es => if s.exitCalls ≠ [] then s else runPeer (peerStep s e) es

/-- A freshly started peer: `new WebSocket(address)` begins in state
`CONNECTING`, the readline interface does not exist yet, and nothing has
happened. -/
def peerInit : PeerState :=
  { readyState := ReadyState.CONNECTING, rlActive := false, sent := []
    stdout := [], stderr := [], closeCalls := [], exitCalls := [] }

/-- Which mode the CLI dispatch launched. -/
inductive Mode
  | hub
  | peer
  deriving DecidableEq, Repr

/-- Outcome of the CLI entry point: stderr lines written, the exit code
passed to `process.exit` (if any), and the mode launched (if any). -/
structure CliResult where
  stderrLines : List String
  exitCode : Option Nat
  mode : Option Mode
  deriving DecidableEq, Repr

/-- The usage line, source lines 131 and 142. -/
def usageMsg : String := "Usage: broadcast-server <start|connect>"

/-- JavaScript `String.prototype.toLowerCase`, restricted to the ASCII
range (`Char.toLower` maps `A`-`Z` to `a`-`z` and fixes everything else),
which coincides with the JavaScript function on all the ASCII comparisons
the entry point performs. -/
def jsToLowerCase (s : String) : String := String.mk (s.data.map Char.toLower)

/-- The CLI entry point, source lines 128-144: with no arguments print the
usage to stderr and exit 1; otherwise lowercase `argv[0]`, run the server on
`start`, run the client on `connect`, and on anything else print the
unknown-command error plus the usage to stderr and exit 1. -/
def dispatch : List String → CliResult
  | [] => { stderrLines := [usageMsg], exitCode := some 1, mode := none }
  | a :: _ =>
      let command := jsToLowerCase a
      if command = "start" then
        { stderrLines := [], exitCode := none, mode := some Mode.hub }
      else if command = "connect" then
        { stderrLines := [], exitCode := none, mode := some Mode.peer }
      else
        { stderrLines := ["Unknown command: " ++ command, usageMsg]
          exitCode := some 1, mode := none }

/-- The dispatch outcome that launches the hub. -/
def hubOutcome : CliResult :=
  { stderrLines := [], exitCode := none, mode := some Mode.hub }

/-- The dispatch outcome that launches the peer. -/
def peerOutcome : CliResult :=
  { stderrLines := [], exitCode := none, mode := some Mode.peer }

/-- The uppercase counterpart of an ASCII lowercase letter (identity on
everything else); used only to enumerate capitalization variants. -/
def upperAscii (c : Char) : Char :=
  if 'a' ≤ c ∧ c ≤ 'z' then Char.ofNat (c.toNat - 32) else c

/-- All capitalization variants of a word given as a list of lowercase
ASCII characters: each position independently kept or uppercased. -/
def caseVariants : List Char → List String
  | [] => [""]
  | c :: cs =>
      (caseVariants cs).flatMap
        (fun r => [String.mk (c :: r.data), String.mk (upperAscii c :: r.data)])

/-- A sample peer state whose connection is open and whose readline
interface is live (used by concrete witnesses). -/
def samplePeerOpen : PeerState :=
  { readyState := ReadyState.OPEN, rlActive := true, sent := []
    stdout := [], stderr := [], closeCalls := [], exitCalls := [] }

/-- A sample peer state whose connection has closed but whose readline
interface is still live (used by concrete witnesses). -/
def samplePeerClosed : PeerState :=
  { readyState := ReadyState.CLOSED, rlActive := true, sent := []
    stdout := [], stderr := [], closeCalls := [], exitCalls := [] }

/-! ## Helper lemmas -/

/-- Every `OPEN` client contributes its close handshake to the action list
built by `closeAllConnections`, at its iteration index offset by the
starting index. -/
theorem mem_shutdownCloseActions (cs : List ReadyState) :
    ∀ (i j : Nat) (h : j < cs.length), cs.get ⟨j, h⟩ = ReadyState.OPEN →
      ServerAction.closeClient (i + j) 1001 "Server shutting down"
        ∈ shutdownCloseActions cs i := by
  induction cs with
  | nil => intro i j h; exact absurd h (Nat.not_lt_zero j)
  | cons st rest ih =>
    intro i j h hopen
    cases j with
    | zero =>
      simp only [List.get] at hopen
      simp [shutdownCloseActions, hopen]
    | succ j' =>
      simp only [List.get] at hopen
      have hmem := ih (i + 1) j' (Nat.lt_of_succ_lt_succ h) hopen
      have harith : i + 1 + j' = i + (j' + 1) := by omega
      rw [harith] at hmem
      exact List.mem_append_right _ hmem

/-- Every element of the close-handshake action list is a `closeClient`
action with code 1001 and the shutdown reason. -/
theorem shutdownCloseActions_shape (cs : List ReadyState) :
    ∀ (i : Nat) (a : ServerAction), a ∈ shutdownCloseActions cs i →
      ∃ k, a = ServerAction.closeClient k 1001 "Server shutting down" := by
  induction cs with
  | nil => intro i a ha; simp [shutdownCloseActions] at ha
  | cons st rest ih =>
    intro i a ha
    rcases List.mem_append.mp ha with hl | hr
    · by_cases hst : st = ReadyState.OPEN
      · simp [hst] at hl
        exact ⟨i, hl⟩
      · simp [hst] at hl
    · exact ih (i + 1) a hr

/-- `peerStep` only ever records exit code 0. -/
theorem peerStep_exit_zero (s : PeerState) (e : PeerEvent)
    (h : (s.exitCalls).all (fun c => c == 0) = true) :
    ((peerStep s e).exitCalls).all (fun c => c == 0) = true := by
  cases e with
  | openEv => simpa [peerStep] using h
  | messageEv d => simpa [peerStep] using h
  | closeEv c r => simp [peerStep, List.all_append, h]
  | errorEv err => simpa [peerStep] using h
  | lineEv l =>
    by_cases hrl : s.rlActive
    · by_cases hst : s.readyState = ReadyState.OPEN
      · simpa [peerStep, hrl, hst] using h
      · simpa [peerStep, hrl, hst] using h
    · simpa [peerStep, hrl] using h
  | signalEv =>
    by_cases hst : s.readyState = ReadyState.OPEN
    · simp [peerStep, hst, List.all_append, h]
    · simp [peerStep, hst, List.all_append, h]

/-- Any run of the peer event loop only ever records exit code 0. -/
theorem runPeer_exit_zero (evs : List PeerEvent) :
    ∀ s : PeerState, (s.exitCalls).all (fun c => c == 0) = true →
      ((runPeer s evs).exitCalls).all (fun c => c == 0) = true := by
  induction evs with
  | nil => intro s h; simpa [runPeer] using h
  | cons e es ih =>
    intro s h
    by_cases hx : s.exitCalls = []
    · simpa [runPeer, hx] using ih _ (peerStep_exit_zero s e h)
    · simpa [runPeer, hx] using h

/-! ## Claim theorems -/

/-- Claim C1: for every inbound message the hub receives, every member of
the connection set whose state is `OPEN` (the sender included — it is just
another member of `wss.clients`) is sent exactly one copy of the message,
byte-for-byte identical to the payload; members not in state `OPEN` receive
nothing. -/
theorem hub_broadcast_delivers_exactly_once (msg : String) (clients : List Client)
    (i : Nat) (h : i < clients.length) :
    (broadcastMessage msg clients).length = clients.length ∧
    ∀ h2 : i < (broadcastMessage msg clients).length,
      ((broadcastMessage msg clients).get ⟨i, h2⟩).inbox =
        if (clients.get ⟨i, h⟩).readyState = ReadyState.OPEN
        then (clients.get ⟨i, h⟩).inbox ++ [msg]
        else (clients.get ⟨i, h⟩).inbox := by
  constructor
  · simp [broadcastMessage, broadcast]
  · intro h2
    by_cases hst : clients[i].readyState = ReadyState.OPEN <;>
      simp [broadcastMessage, broadcast, sendTo, List.get_eq_getElem,
        List.getElem_map, hst]

/-- Witness for C1: in a two-member set with one `OPEN` and one `CLOSED`
member, the `OPEN` member's inbox gains exactly the sent payload. -/
theorem hub_broadcast_delivers_exactly_once_witness :
    ((broadcastMessage "hello" [⟨0, ReadyState.OPEN, []⟩, ⟨1, ReadyState.CLOSED, []⟩]).get
        ⟨0, by decide⟩).inbox = ["hello"] := by
  have h := hub_broadcast_delivers_exactly_once "hello"
    [⟨0, ReadyState.OPEN, []⟩, ⟨1, ReadyState.CLOSED, []⟩] 0 (by decide)
  exact (h.2 (by decide)).trans (by decide)

/-- Claim C6: during a hub broadcast, a transport-level send failure on one
member neither aborts delivery to the remaining members nor raises an error
to the caller of the message handler (the loop is the total function
`broadcast`, which inspects no send result): whatever the failure oracle
does on other members, every `OPEN` member whose own send does not fail
still receives the message, and the member list is traversed in full. -/
theorem hub_broadcast_best_effort (msg : String) (fails : Nat → Bool)
    (clients : List Client) (i : Nat) (h : i < clients.length)
    (hopen : (clients.get ⟨i, h⟩).readyState = ReadyState.OPEN)
    (hok : fails (clients.get ⟨i, h⟩).id = false) :
    (broadcast fails msg clients).length = clients.length ∧
    ∀ h2 : i < (broadcast fails msg clients).length,
      ((broadcast fails msg clients).get ⟨i, h2⟩).inbox =
        (clients.get ⟨i, h⟩).inbox ++ [msg] := by
  constructor
  · simp [broadcast]
  · intro h2
    simp only [List.get_eq_getElem] at hopen hok ⊢
    simp [broadcast, sendTo, List.getElem_map, hopen, hok]

/-- Witness for C6: with two `OPEN` members where the second member's send
fails, the first member still receives the message. -/
theorem hub_broadcast_best_effort_witness :
    ((broadcast (fun id => id == 1) "hi"
        [⟨0, ReadyState.OPEN, []⟩, ⟨1, ReadyState.OPEN, []⟩]).get ⟨0, by decide⟩).inbox
      = ["hi"] := by
  have h := hub_broadcast_best_effort "hi" (fun id => id == 1)
    [⟨0, ReadyState.OPEN, []⟩, ⟨1, ReadyState.OPEN, []⟩] 0 (by decide)
    (by decide) (by decide)
  exact (h.2 (by decide)).trans (by decide)

/-- Claim C2 (failing run): the source installs `closeAllConnections` as
the handler of both shutdown signals with no one-shot guard, so a hub with
one `OPEN` client that receives two signals before its listener close
completes runs the close sequence twice — `closeAllConnections` executes
twice and `wss.close` is requested twice — where the claim requires exactly
one close sequence with the second signal a no-op.  (The peer side does
satisfy the claim, but only because `shutdownClient` calls `process.exit(0)`
synchronously, so a second signal is never consumed: its exit-call list
after two signals is `[0]`.) -/
theorem hub_second_signal_reruns_close_sequence :
    (runServer (initServer [ReadyState.OPEN])
        [ServerEvent.signal, ServerEvent.signal]).closeSeqCount = 2
    ∧ ((runServer (initServer [ReadyState.OPEN])
        [ServerEvent.signal, ServerEvent.signal]).trace.count
          ServerAction.closeListener) = 2
    ∧ (runPeer peerInit [PeerEvent.signalEv, PeerEvent.signalEv]).exitCalls = [0] := by
  decide

/-- Claim C5: on the hub's first shutdown signal, the trace of the run up to
process exit is: the shutdown log, then one close handshake
`(1001, "Server shutting down")` for every member in state `OPEN` (and those
actions are close handshakes only — the listener close and the exit are not
among them), then the listener close, and only on listener-close completion
the `process.exit(0)`. -/
theorem hub_shutdown_sequence (cs : List ReadyState) :
    (runServer (initServer cs) [ServerEvent.signal, ServerEvent.listenerCloseComplete]).trace
      = [ServerAction.logOut "\nShutting down server..."]
        ++ shutdownCloseActions cs 0
        ++ [ServerAction.closeListener, ServerAction.logOut "Server has closed.",
            ServerAction.exitProcess 0]
    ∧ (∀ (j : Nat) (h : j < cs.length), cs.get ⟨j, h⟩ = ReadyState.OPEN →
        ServerAction.closeClient j 1001 "Server shutting down"
          ∈ shutdownCloseActions cs 0)
    ∧ ServerAction.closeListener ∉ shutdownCloseActions cs 0
    ∧ (∀ c, ServerAction.exitProcess c ∉ shutdownCloseActions cs 0) := by
  refine ⟨?_, ?_, ?_, ?_⟩
  · simp [runServer, serverStep, initServer, closeAllConnections]
  · intro j h hopen
    simpa using mem_shutdownCloseActions cs 0 j h hopen
  · intro hmem
    obtain ⟨k, hk⟩ := shutdownCloseActions_shape cs 0 _ hmem
    cases hk
  · intro c hmem
    obtain ⟨k, hk⟩ := shutdownCloseActions_shape cs 0 _ hmem
    cases hk

/-- Witness for C5: a hub with members `[OPEN, CLOSED, OPEN]` produces the
close handshakes for members 0 and 2, then the listener close, then the
exit. -/
theorem hub_shutdown_sequence_witness :
    (runServer (initServer [ReadyState.OPEN, ReadyState.CLOSED, ReadyState.OPEN])
        [ServerEvent.signal, ServerEvent.listenerCloseComplete]).trace
      = [ServerAction.logOut "\nShutting down server...",
          ServerAction.closeClient 0 1001 "Server shutting down",
          ServerAction.closeClient 2 1001 "Server shutting down",
          ServerAction.closeListener, ServerAction.logOut "Server has closed.",
          ServerAction.exitProcess 0]
    ∧ ServerAction.closeClient 0 1001 "Server shutting down"
        ∈ shutdownCloseActions [ReadyState.OPEN, ReadyState.CLOSED, ReadyState.OPEN] 0 := by
  refine ⟨?_, ?_⟩
  · exact (hub_shutdown_sequence
      [ReadyState.OPEN, ReadyState.CLOSED, ReadyState.OPEN]).1.trans (by decide)
  · exact (hub_shutdown_sequence
      [ReadyState.OPEN, ReadyState.CLOSED, ReadyState.OPEN]).2.1 0 (by decide) (by decide)

/-- Claim C4 (counterexample): at the concrete bind failure
`EADDRINUSE`, the hub's error handler only writes the error to stderr; no
`process.exit` action of any code appears in the trace and the process has
not exited — contradicting the claim that a bind failure is fatal with a
non-zero exit. -/
theorem hub_bind_error_does_not_exit :
    (runServer (initServer [])
        [ServerEvent.serverError "listen EADDRINUSE: address already in use :::8080"]).trace
      = [ServerAction.logErr "Server error: listen EADDRINUSE: address already in use :::8080"]
    ∧ (runServer (initServer [])
        [ServerEvent.serverError "listen EADDRINUSE: address already in use :::8080"]).exited
      = false := by
  decide

/-- Claim C4 (amended): when the hub's listener cannot bind its port, the
`error` handler surfaces the failure to the operator by logging it to
stderr, and does nothing else: the process does not exit (with any code). -/
theorem hub_bind_error_logged_only (err : String) (cs : List ReadyState) :
    (runServer (initServer cs) [ServerEvent.serverError err]).trace
      = [ServerAction.logErr ("Server error: " ++ err)]
    ∧ (runServer (initServer cs) [ServerEvent.serverError err]).exited = false := by
  constructor <;> simp [runServer, serverStep, initServer]

/-- Claim C3 (counterexample): at the concrete connect-refused run (the
`error` event for `ECONNREFUSED` followed by the transport's `close` event),
the peer calls `process.exit(0)` — exit code 1 is never called —
contradicting the claim that a connect failure exits with code 1. -/
theorem peer_connect_refused_exits_zero :
    (runPeer peerInit [PeerEvent.errorEv "connect ECONNREFUSED ::1:8080",
        PeerEvent.closeEv 1006 ""]).exitCalls = [0]
    ∧ (1 : Nat) ∉ (runPeer peerInit [PeerEvent.errorEv "connect ECONNREFUSED ::1:8080",
        PeerEvent.closeEv 1006 ""]).exitCalls := by
  decide

/-- Claim C3 (amended): a connect failure is surfaced to the operator (the
`error` handler logs it to stderr), and the subsequent `close` event
terminates the process with exit code 0; indeed every exit call the peer
ever makes, on any event sequence, has code 0 — the peer never exits with a
non-zero code. -/
theorem peer_connect_failure_surfaced_exit_zero :
    (∀ evs : List PeerEvent,
      ((runPeer peerInit evs).exitCalls).all (fun c => c == 0) = true)
    ∧ (runPeer peerInit [PeerEvent.errorEv "connect ECONNREFUSED ::1:8080",
        PeerEvent.closeEv 1006 ""]).stderr
      = ["WebSocket error: connect ECONNREFUSED ::1:8080"]
    ∧ (runPeer peerInit [PeerEvent.errorEv "connect ECONNREFUSED ::1:8080",
        PeerEvent.closeEv 1006 ""]).exitCalls = [0] := by
  exact ⟨fun evs => runPeer_exit_zero evs peerInit (by decide), by decide, by decide⟩

/-- Claim C7: CLI dispatch — no arguments yields the usage message on
stderr and exit code 1; first argument `start` runs the hub; first argument
`connect` runs the peer; any first argument whose lowercasing is neither
`start` nor `connect` yields the unknown-command error plus the usage on
stderr and exit code 1. -/
theorem cli_dispatch_cases :
    dispatch [] = { stderrLines := [usageMsg], exitCode := some 1, mode := none }
    ∧ (∀ rest : List String, dispatch ("start" :: rest) = hubOutcome)
    ∧ (∀ rest : List String, dispatch ("connect" :: rest) = peerOutcome)
    ∧ (∀ (a : String) (rest : List String),
        jsToLowerCase a ≠ "start" → jsToLowerCase a ≠ "connect" →
          dispatch (a :: rest)
            = { stderrLines := ["Unknown command: " ++ jsToLowerCase a, usageMsg]
                exitCode := some 1, mode := none }) := by
  refine ⟨rfl, fun rest => ?_, fun rest => ?_, fun a rest h1 h2 => ?_⟩
  · simp [dispatch, hubOutcome, (by decide : jsToLowerCase "start" = "start")]
  · simp [dispatch, peerOutcome, (by decide : jsToLowerCase "connect" = "connect")]
  · simp [dispatch, h1, h2]

/-- Witness for C7: the unknown first argument `blah` produces the
unknown-command error, the usage line and exit code 1. -/
theorem cli_dispatch_cases_witness :
    dispatch ["blah"]
      = { stderrLines := ["Unknown command: blah", usageMsg]
          exitCode := some 1, mode := none } := by
  exact (cli_dispatch_cases.2.2.2 "blah" [] (by decide) (by decide)).trans (by decide)

/-- Claim C10: CLI command matching is case-insensitive — the first
argument is lowercased before comparison, so every argument lowercasing to
`start` runs the hub, every argument lowercasing to `connect` runs the
peer, and in particular every one of the `2^5` capitalization variants of
`start` and the `2^7` capitalization variants of `connect` is accepted
rather than rejected as unknown. -/
theorem cli_case_insensitive :
    (∀ (a : String) (rest : List String),
      jsToLowerCase a = "start" → dispatch (a :: rest) = hubOutcome)
    ∧ (∀ (a : String) (rest : List String),
      jsToLowerCase a = "connect" → dispatch (a :: rest) = peerOutcome)
    ∧ ((caseVariants "start".data).all (fun v => dispatch [v] = hubOutcome) = true)
    ∧ ((caseVariants "connect".data).all (fun v => dispatch [v] = peerOutcome) = true) := by
  refine ⟨fun a rest h => ?_, fun a rest h => ?_, by decide, by decide⟩
  · simp [dispatch, h, hubOutcome]
  · simp [dispatch, h, peerOutcome]

/-- Witness for C10: `START` runs the hub and `Connect` runs the peer. -/
theorem cli_case_insensitive_witness :
    dispatch ["START"] = hubOutcome ∧ dispatch ["Connect"] = peerOutcome :=
  ⟨cli_case_insensitive.1 "START" [] (by decide),
   cli_case_insensitive.2.1 "Connect" [] (by decide)⟩

/-- Claim C8: for every operator input line the peer consumes (the readline
interface exists, i.e. the `open` handler has run): if the connection is
`OPEN` the line is sent to the hub and nothing else changes; otherwise the
local not-connected notice is printed and the line is dropped — it is
recorded nowhere else in the state, so there is no queueing and no retry. -/
theorem peer_line_send_or_notice (s : PeerState) (l : String)
    (hrl : s.rlActive = true) :
    peerStep s (PeerEvent.lineEv l)
      = if s.readyState = ReadyState.OPEN
        then { s with sent := s.sent ++ [l] }
        else { s with stdout := s.stdout
                ++ ["Connection is not open. Unable to send message."] } := by
  by_cases hst : s.readyState = ReadyState.OPEN <;> simp [peerStep, hrl, hst]

/-- Witness for C8: with an open connection the line `hello` is sent; with
a closed connection the notice is printed and the line dropped. -/
theorem peer_line_send_or_notice_witness :
    peerStep samplePeerOpen (PeerEvent.lineEv "hello")
      = { samplePeerOpen with sent := ["hello"] }
    ∧ peerStep samplePeerClosed (PeerEvent.lineEv "hello")
      = { samplePeerClosed with
          stdout := ["Connection is not open. Unable to send message."] } := by
  constructor
  · exact (peer_line_send_or_notice samplePeerOpen "hello" (by decide)).trans (by decide)
  · exact (peer_line_send_or_notice samplePeerClosed "hello" (by decide)).trans (by decide)

/-- Claim C9: for every inbound message the peer receives, it writes exactly
the string `"> "` followed by the untransformed payload to stdout, and
changes nothing else. -/
theorem peer_message_prints_prefixed (s : PeerState) (data : String) :
    peerStep s (PeerEvent.messageEv data)
      = { s with stdout := s.stdout ++ ["> " ++ data] } := rfl
